import Mathlib

/-!
Verification of the weapon-arrests dashboard (`src/analysis/fianl_data.py`).

Shallow embedding of the data model and operations of the dashboard script.
A monthly table is a list of rows carrying the columns consumed by the
script (`Year`, `Month`, `Year_Month`, `Arrests`, `3_Month_Avg`,
`12_Month_Avg`, `YoY_Change`); absent (NaN) cells of the derived columns
are `Option.none`.  Pandas operations used by the script (boolean-mask
filtering, `groupby` + `agg`, `pivot`, column `mean` with NaN skipping,
`shift`) are embedded as list functions below; values that pandas turns
into IEEE infinities or NaN via division by zero are represented
symbolically by `PandasVal`.
-/

namespace DataDashboard

/-- One row of the monthly CSV `weapon_arrests_monthly.csv` as consumed by
the script.  `Avg_3_Month`, `Avg_12_Month` stand for the `3_Month_Avg` and
`12_Month_Avg` columns (Lean names cannot start with a digit). -/
structure Row where
  Year : Int
  Month : Int
  Year_Month : String
  Arrests : Int
  Avg_3_Month : Option ℚ
  Avg_12_Month : Option ℚ
  YoY_Change : Option ℚ
deriving DecidableEq, Repr

/-- One row of `weapon_arrests_summary.csv`. -/
structure SummaryRow where
  Year : Int
  Total_Arrests : Int
  Average_Monthly_Arrests : ℚ
  Max_Monthly_Arrests : Int
  Min_Monthly_Arrests : Int
  Standard_Deviation : ℚ
deriving DecidableEq, Repr

/-- One row of `weapon_arrests_monthly_averages.csv`. -/
structure AvgRow where
  Month : Int
  Average_Arrests : Option ℚ
  Std_Dev : Option ℚ
  Min_Arrests : Option Int
  Max_Arrests : Option Int
deriving DecidableEq, Repr

/-- Embeds `filtered_data = monthly_data[(monthly_data['Year'] >= year_range[0]) &
(monthly_data['Year'] <= year_range[1])]`: boolean-mask filtering keeps the
matching rows in order. -/
def filtered_data (monthly_data : List Row) (lo hi : Int) : List Row :=
  monthly_data.filter fun r => decide (lo ≤ r.Year) && decide (r.Year ≤ hi)

/-- KPI `total_arrests = filtered_data['Arrests'].sum()`. -/
def total_arrests (fd : List Row) : Int :=
  (fd.map (·.Arrests)).sum

/-- KPI `avg_monthly = filtered_data['Arrests'].mean()`; pandas `mean` of an
empty column is NaN (`none`). -/
def avg_monthly (fd : List Row) : Option ℚ :=
  if fd.length = 0 then none
  else some ((total_arrests fd : ℚ) / (fd.length : ℚ))

/-- Pandas `Series.mean()` with the default `skipna=True`: NaN entries are
dropped; the mean of a column whose present values are `vs` is
`vs.sum / vs.length`, and NaN when no value is present. -/
def pandasMean (xs : List (Option ℚ)) : Option ℚ :=
  if (xs.filterMap id).length = 0 then none
  else some ((xs.filterMap id).sum / ((xs.filterMap id).length : ℚ))

/-- KPI `yoy_change = filtered_data['YoY_Change'].mean()`. -/
def yoy_change (fd : List Row) : Option ℚ :=
  pandasMean (fd.map (·.YoY_Change))

/-- Python `v > 0` where `v` is a float that may be NaN: any comparison
with NaN is `False`. -/
def optPos : Option ℚ → Bool
  | some q => decide (0 < q)
  | none => false

/-- KPI `trend = "📈" if yoy_change > 0 else "📉"`. -/
def trend (fd : List Row) : String :=
  if optPos (yoy_change fd) then "📈" else "📉"

/-- A float value produced by a numpy/pandas arithmetic expression: finite,
positive or negative infinity, or NaN.  Division of a finite value by zero
yields an infinity (or NaN for `0/0`), not an exception. -/
inductive PandasVal where
  | finite : ℚ → PandasVal
  | posInf : PandasVal
  | negInf : PandasVal
  | nan : PandasVal
deriving DecidableEq, Repr

/-- Numpy true division `a / b` of integer-valued scalars (the `Arrests`
series is int64, so both operands here are integral): `a/0` is `+inf` for
`a > 0`, `-inf` for `a < 0`, NaN for `0/0` (a RuntimeWarning, not an
exception); otherwise the exact float quotient. -/
def npDiv (a b : ℤ) : PandasVal :=
  if b = 0 then
    (if 0 < a then .posInf else if a < 0 then .negInf else .nan)
  else .finite ((a : ℚ) / (b : ℚ))

/-- Subtracting the finite constant `c` from a pandas value: infinities and
NaN are preserved. -/
def pvSub (v : PandasVal) (c : ℚ) : PandasVal :=
  match v with
  | .finite q => .finite (q - c)
  | x => x

/-- Multiplying a pandas value by `100`: the positive factor preserves the
sign of infinities, and NaN is preserved. -/
def pvMul100 (v : PandasVal) : PandasVal :=
  match v with
  | .finite q => .finite (q * 100)
  | x => x

/-- Embeds `x.shift(n).sum()` for a series with values `xs`: `shift(n)` moves each
value down `n` positions filling the first `n` with NaN, and `sum()` skips
NaN (summing to `0` when nothing is present), so the result is the sum of
the first `length - n` values. -/
def shiftSum (n : Nat) (xs : List ℤ) : ℤ :=
  (xs.take (xs.length - n)).sum

/-- The aggregation lambda of the `Year-over-Year Changes` table:
`lambda x: ((x.sum() / x.shift(12).sum()) - 1) * 100` applied to the
`Arrests` series `xs` of one year group. -/
def yoyAgg (xs : List ℤ) : PandasVal :=
  pvMul100 (pvSub (npDiv xs.sum (shiftSum 12 xs)) 1)

/-- The sorted distinct keys produced by `groupby('Year')` (pandas groups
by key value, keys ascending under the default `sort=True`). -/
def groupKeys (fd : List Row) : List Int :=
  List.insertionSort (· ≤ ·) ((fd.map (·.Year)).dedup)

/-- One row of the `yearly_changes` statistics table. -/
structure YcRow where
  Year : Int
  Total_Arrests : Int
  YoY_Change : PandasVal
deriving DecidableEq, Repr

/-- Embeds `yearly_changes = filtered_data.groupby('Year')['Arrests'].agg(
[('Total_Arrests', 'sum'), ('YoY_Change', lambda x: ((x.sum() /
x.shift(12).sum()) - 1) * 100)]).reset_index()`: one output row per
distinct year, `x` being that year group's `Arrests` series in table
order. -/
def yearly_changes (fd : List Row) : List YcRow :=
  (groupKeys fd).map fun k =>
    let g := ((fd.filter fun r => decide (r.Year = k)).map (·.Arrests))
    { Year := k
      Total_Arrests := g.sum
      YoY_Change := yoyAgg g }

/-- An indicator sum over keys not containing `a` vanishes. -/
lemma sum_map_ite_zero (keys : List Int) (a : Int) (c : Int) (ha : a ∉ keys) :
    (keys.map fun k => if k = a then c else 0).sum = 0 := by
  induction keys with
  | nil => rfl
  | cons k ks ih =>
    simp only [List.map_cons, List.sum_cons]
    rw [if_neg (by rintro rfl; exact ha (List.mem_cons_self _ _)),
      ih (fun h => ha (List.mem_cons_of_mem _ h)), add_zero]

/-- An indicator sum over duplicate-free keys containing `a` picks out `c`
exactly once. -/
lemma sum_map_ite (keys : List Int) (a : Int) (c : Int)
    (hnd : keys.Nodup) (ha : a ∈ keys) :
    (keys.map fun k => if k = a then c else 0).sum = c := by
  induction keys with
  | nil => cases ha
  | cons k ks ih =>
    simp only [List.map_cons, List.sum_cons]
    rcases List.mem_cons.mp ha with h | h
    · rw [if_pos h.symm,
        sum_map_ite_zero ks a c (by rw [h]; exact (List.nodup_cons.mp hnd).1), add_zero]
    · rw [if_neg (by rintro rfl; exact (List.nodup_cons.mp hnd).1 h),
        ih (List.nodup_cons.mp hnd).2 h, zero_add]

/-- Pointwise addition under a mapped sum splits. -/
lemma sum_map_addf (keys : List Int) (f g : Int → Int) :
    (keys.map fun k => f k + g k).sum = (keys.map f).sum + (keys.map g).sum := by
  induction keys with
  | nil => rfl
  | cons k ks ih =>
    simp only [List.map_cons, List.sum_cons, ih]
    ring

/-- Summing the per-key group totals over a duplicate-free key list that
covers every row's `Year` recovers the total of the whole table. -/
lemma sum_groups (keys : List Int) (fd : List Row)
    (hnd : keys.Nodup) (hcov : ∀ r ∈ fd, r.Year ∈ keys) :
    (keys.map fun k =>
        (((fd.filter fun r => decide (r.Year = k)).map (·.Arrests)).sum)).sum
      = (fd.map (·.Arrests)).sum := by
  induction fd with
  | nil => simp
  | cons r rest ih =>
    have hcov' : ∀ x ∈ rest, x.Year ∈ keys := fun x hx =>
      hcov x (List.mem_cons_of_mem _ hx)
    have hr : r.Year ∈ keys := hcov r (List.mem_cons_self _ _)
    have hsplit : ∀ k : Int,
        (((r :: rest).filter fun x => decide (x.Year = k)).map (·.Arrests)).sum
          = (if k = r.Year then r.Arrests else 0)
            + (((rest.filter fun x => decide (x.Year = k)).map (·.Arrests)).sum) := by
      intro k
      rcases eq_or_ne r.Year k with h | h
      · simp [List.filter_cons, h]
      · simp [List.filter_cons, h, (Ne.symm h)]
    calc (keys.map fun k =>
            (((r :: rest).filter fun x => decide (x.Year = k)).map (·.Arrests)).sum).sum
        = (keys.map fun k => (if k = r.Year then r.Arrests else 0)
            + (((rest.filter fun x => decide (x.Year = k)).map (·.Arrests)).sum)).sum := by
          exact congrArg List.sum (List.map_congr_left fun k _ => hsplit k)
      _ = (keys.map fun k => if k = r.Year then r.Arrests else 0).sum
            + (keys.map fun k =>
                (((rest.filter fun x => decide (x.Year = k)).map (·.Arrests)).sum)).sum := by
          exact sum_map_addf keys _ _
      _ = r.Arrests + (rest.map (·.Arrests)).sum := by
          rw [sum_map_ite keys r.Year r.Arrests hnd hr, ih hcov']
      _ = ((r :: rest).map (·.Arrests)).sum := by simp

/-- C2: summing `Total_Arrests` over the per-year rows of the
`yearly_changes` table recovers the sum of the `Arrests` column of the
underlying (filtered) monthly table, which is exactly the `Total Arrests`
KPI `total_arrests` computed over the same rows. -/
theorem yearly_changes_conserves_total (fd : List Row) :
    ((yearly_changes fd).map (·.Total_Arrests)).sum = total_arrests fd := by
  have hnd : (groupKeys fd).Nodup := by
    unfold groupKeys
    exact (List.perm_insertionSort _ _).nodup_iff.mpr (List.nodup_dedup _)
  have hcov : ∀ r ∈ fd, r.Year ∈ groupKeys fd := by
    intro r hr
    unfold groupKeys
    exact (List.mem_insertionSort _).mpr (List.mem_dedup.mpr (List.mem_map_of_mem _ hr))
  have h := sum_groups (groupKeys fd) fd hnd hcov
  simpa [yearly_changes, total_arrests, List.map_map, Function.comp] using h

/-- C3: the boolean-mask year-range filter keeps exactly the rows whose
`Year` lies in `[lo, hi]`, as a sublist of the monthly table — same order,
same column values. -/
theorem filtered_data_spec (df : List Row) (lo hi : Int) (h : lo ≤ hi) :
    (∀ r, r ∈ filtered_data df lo hi ↔ (r ∈ df ∧ lo ≤ r.Year ∧ r.Year ≤ hi)) ∧
    (filtered_data df lo hi).Sublist df := by
  constructor
  · intro r
    simp [filtered_data, List.mem_filter]
  · exact List.filter_sublist _

theorem filtered_data_spec_witness :
    (filtered_data [⟨2018, 1, "2018-01", 10, none, none, none⟩] 2018 2019).Sublist
      [⟨2018, 1, "2018-01", 10, none, none, none⟩] :=
  (filtered_data_spec [⟨2018, 1, "2018-01", 10, none, none, none⟩] 2018 2019
    (by decide)).2

/-- C9: the `Average YoY Change` KPI is the pandas mean of the filtered
`YoY_Change` column: absent (NaN) entries are skipped, not counted as
zero; the mean is NaN (`none`) exactly when every entry is absent, and
otherwise it is the sum of the present values divided by their count. -/
theorem yoy_change_mean_spec (fd : List Row) :
    (yoy_change fd = none ↔ ∀ r ∈ fd, r.YoY_Change = none) ∧
    (∀ q, yoy_change fd = some q →
      (fd.filterMap (·.YoY_Change)) ≠ [] ∧
      q = (fd.filterMap (·.YoY_Change)).sum
            / ((fd.filterMap (·.YoY_Change)).length : ℚ)) := by
  have hv : (fd.map (·.YoY_Change)).filterMap id = fd.filterMap (·.YoY_Change) := by
    rw [List.filterMap_map]
    rfl
  constructor
  · constructor
    · intro hnone
      simp only [yoy_change, pandasMean, hv] at hnone
      by_cases h0 : (fd.filterMap (·.YoY_Change)).length = 0
      · exact fun r hr => List.filterMap_eq_nil_iff.mp (List.length_eq_zero.mp h0) r hr
      · rw [if_neg h0] at hnone
        exact absurd hnone (by simp)
    · intro hall
      simp only [yoy_change, pandasMean, hv]
      rw [if_pos (by rw [List.length_eq_zero, List.filterMap_eq_nil_iff]; exact hall)]
  · intro q hq
    simp only [yoy_change, pandasMean, hv] at hq
    by_cases h0 : (fd.filterMap (·.YoY_Change)).length = 0
    · rw [if_pos h0] at hq
      exact absurd hq (by simp)
    · rw [if_neg h0] at hq
      injection hq with hq'
      exact ⟨fun hnil => h0 (by rw [hnil]; rfl), hq'.symm⟩

theorem yoy_change_mean_spec_witness :
    ([(⟨2019, 1, "2019-01", 15, none, none, some 50⟩ : Row)].filterMap
        (·.YoY_Change)) ≠ [] ∧
    (50 : ℚ) = ([(⟨2019, 1, "2019-01", 15, none, none, some 50⟩ : Row)].filterMap
        (·.YoY_Change)).sum
      / (([(⟨2019, 1, "2019-01", 15, none, none, some 50⟩ : Row)].filterMap
        (·.YoY_Change)).length : ℚ) :=
  (yoy_change_mean_spec [⟨2019, 1, "2019-01", 15, none, none, some 50⟩]).2 50
    (by simp [yoy_change, pandasMean])

/-- C10: the `Overall Trend` KPI shows "📈" iff the average YoY change is a
present value strictly greater than zero; a zero average and an absent
(NaN) average both show "📉", since Python comparisons with NaN are false.
-/
theorem trend_spec (fd : List Row) :
    (trend fd = "📈" ↔ ∃ q, yoy_change fd = some q ∧ 0 < q) ∧
    (yoy_change fd = none → trend fd = "📉") ∧
    (yoy_change fd = some 0 → trend fd = "📉") := by
  refine ⟨?_, ?_, ?_⟩
  · unfold trend
    split_ifs with hpos
    · constructor
      · intro _
        cases hy : yoy_change fd with
        | none => rw [hy] at hpos; exact absurd hpos (by simp [optPos])
        | some q =>
          rw [hy] at hpos
          exact ⟨q, rfl, of_decide_eq_true hpos⟩
      · intro _; rfl
    · constructor
      · intro hstr
        exact absurd hstr (by decide)
      · rintro ⟨q, hq, h0⟩
        rw [hq] at hpos
        exact absurd (decide_eq_true h0) hpos
  · intro hnone
    unfold trend
    rw [hnone]
    rfl
  · intro hzero
    unfold trend
    rw [hzero]
    simp [optPos]

theorem trend_spec_witness : trend [] = "📉" :=
  (trend_spec []).2.1 rfl

/-- Modelled from the spec: the Aggregator that produces the
`3_Month_Avg` and `12_Month_Avg` columns is absent from the repository
(the dashboard only consumes the precomputed CSV columns).  Per the spec,
the trailing moving average of window `w` over the chronologically sorted
series assigns to position `i` the mean of the window ending at `i` when
at least `w` periods exist up to and including `i`, and leaves the value
absent otherwise (no partial-window averaging). -/
def rollingMean (w : Nat) (xs : List ℚ) : List (Option ℚ) :=
  (List.range xs.length).map fun i =>
    if i + 1 < w then none
    else some (((xs.take (i + 1)).drop (i + 1 - w)).sum / (w : ℚ))

lemma rollingMean_getElem (w : Nat) (xs : List ℚ) (i : Nat) (hi : i < xs.length) :
    (rollingMean w xs)[i]? =
      some (if i + 1 < w then none
            else some (((xs.drop (i + 1 - w)).take w).sum / (w : ℚ))) := by
  unfold rollingMean
  rw [List.getElem?_map, List.getElem?_range hi]
  simp only [Option.map_some']
  congr 1
  split_ifs with hlt
  · rfl
  · have harith : i + 1 - (i + 1 - w) = w := by omega
    rw [List.drop_take, harith]

/-- C5: over the sorted monthly series `xs`, the 3-month trailing average
at position `i` is present iff `i ≥ 2` and then equals the mean of
`xs[i-2..i]`; the 12-month one is present iff `i ≥ 11` and then equals
the mean of `xs[i-11..i]`; earlier positions are absent (no
partial-window averaging). -/
theorem rolling_avgs_spec (xs : List ℚ) (i : Nat) (hi : i < xs.length) :
    ((rollingMean 3 xs)[i]? = some none ↔ i < 2) ∧
    (2 ≤ i → (rollingMean 3 xs)[i]? =
      some (some (((xs.drop (i - 2)).take 3).sum / (3 : ℚ)))) ∧
    ((rollingMean 12 xs)[i]? = some none ↔ i < 11) ∧
    (11 ≤ i → (rollingMean 12 xs)[i]? =
      some (some (((xs.drop (i - 11)).take 12).sum / (12 : ℚ)))) := by
  have h3 := rollingMean_getElem 3 xs i hi
  have h12 := rollingMean_getElem 12 xs i hi
  refine ⟨?_, ?_, ?_, ?_⟩
  · rw [h3]
    constructor
    · intro he
      by_contra hge
      rw [if_neg (by omega)] at he
      simp at he
    · intro hlt
      rw [if_pos (by omega)]
  · intro h2
    have harith : i + 1 - 3 = i - 2 := by omega
    rw [h3, if_neg (by omega), harith]
    norm_num
  · rw [h12]
    constructor
    · intro he
      by_contra hge
      rw [if_neg (by omega)] at he
      simp at he
    · intro hlt
      rw [if_pos (by omega)]
  · intro h11
    have harith : i + 1 - 12 = i - 11 := by omega
    rw [h12, if_neg (by omega), harith]
    norm_num

theorem rolling_avgs_spec_witness :
    (rollingMean 3 [1, 2, 3])[2]? =
      some (some ((([(1 : ℚ), 2, 3].drop (2 - 2)).take 3).sum / (3 : ℚ))) :=
  (rolling_avgs_spec [1, 2, 3] 2 (by norm_num)).2.1 (by norm_num)

/-- A raw input observation of the Aggregator: one (Year, Month, Arrests)
record. -/
structure Observation where
  Year : Int
  Month : Int
  Arrests : Int
deriving DecidableEq, Repr

/-- The error the Aggregator raises on malformed input. -/
inductive MalformedInputError where
  | duplicatePeriod : MalformedInputError
  | negativeArrests : MalformedInputError
deriving DecidableEq, Repr

/-- Modelled from the spec: the Aggregator's input validation is absent
from the repository (the dashboard only consumes the precomputed CSVs; its
`pivot` calls independently fail on duplicate periods).  Per the spec, the
computation fails with `MalformedInputError` if duplicate (Year, Month)
pairs are found, or if any `Arrests` value is negative. -/
def validateObservations (obs : List Observation) :
    Except MalformedInputError (List Observation) :=
  if (obs.map fun o => (o.Year, o.Month)).Nodup then
    if obs.any fun o => decide (o.Arrests < 0) then .error .negativeArrests
    else .ok obs
  else .error .duplicatePeriod

/-- C4: an input holding two observations with the same (Year, Month) pair
makes the Aggregator fail with `MalformedInputError` (duplicates are
rejected, never silently aggregated). -/
theorem duplicate_period_rejected (obs : List Observation) (i j : Nat)
    (hi : i < obs.length) (hj : j < obs.length) (hne : i ≠ j)
    (hY : (obs.get ⟨i, hi⟩).Year = (obs.get ⟨j, hj⟩).Year)
    (hM : (obs.get ⟨i, hi⟩).Month = (obs.get ⟨j, hj⟩).Month) :
    validateObservations obs = .error .duplicatePeriod := by
  have hdup : ¬ (obs.map fun o => (o.Year, o.Month)).Nodup := by
    intro hnd
    have hlen : i < (obs.map fun o => (o.Year, o.Month)).length := by
      rw [List.length_map]; exact hi
    have hlen' : j < (obs.map fun o => (o.Year, o.Month)).length := by
      rw [List.length_map]; exact hj
    have hkey : (obs.map fun o => (o.Year, o.Month)).get ⟨i, hlen⟩
        = (obs.map fun o => (o.Year, o.Month)).get ⟨j, hlen'⟩ := by
      rw [List.get_map, List.get_map]
      exact Prod.ext hY hM
    have := List.nodup_iff_injective_get.mp hnd hkey
    exact hne (congrArg Fin.val this)
  unfold validateObservations
  rw [if_neg hdup]

theorem duplicate_period_rejected_witness :
    validateObservations [⟨2018, 1, 5⟩, ⟨2018, 1, 7⟩]
      = .error .duplicatePeriod :=
  duplicate_period_rejected [⟨2018, 1, 5⟩, ⟨2018, 1, 7⟩] 0 1
    (by norm_num) (by norm_num) (by norm_num) rfl rfl

/-- The sorted distinct values of a key column, as pandas `pivot` uses for
its index and columns. -/
def pivotKeys (fd : List Row) (f : Row → Int) : List Int :=
  List.insertionSort (· ≤ ·) ((fd.map f).dedup)

/-- Embeds `DataFrame.pivot(index=..., columns=..., values=...)`: a grid over the
sorted distinct index and column keys whose cell holds the value of the
unique row with those keys (NaN, i.e. `none`, when no such row exists);
pandas raises `ValueError: Index contains duplicate entries, cannot
reshape` when some (index, columns) pair occurs twice. -/
def pivot {α : Type} (fd : List Row) (idx cols : Row → Int) (vals : Row → α) :
    Except String (List (Int × List (Int × Option α))) :=
  if (fd.map fun r => (idx r, cols r)).Nodup then
    .ok ((pivotKeys fd idx).map fun i =>
      (i, (pivotKeys fd cols).map fun c =>
        (c, (fd.find? fun r => decide (idx r = i) && decide (cols r = c)).map vals)))
  else .error "Index contains duplicate entries, cannot reshape"

/-- Embeds `yearly_comparison = filtered_data.pivot(index='Month',
columns='Year', values='Arrests')`. -/
def yearly_comparison (fd : List Row) :
    Except String (List (Int × List (Int × Option Int))) :=
  pivot fd (·.Month) (·.Year) (·.Arrests)

/-- Embeds `yoy_pivot = filtered_data.pivot(index='Year', columns='Month',
values='YoY_Change')`. -/
def yoy_pivot (fd : List Row) :
    Except String (List (Int × List (Int × Option (Option ℚ)))) :=
  pivot fd (·.Year) (·.Month) (·.YoY_Change)

/-- The files `load_data` reads, as an abstract directory: each of the
three CSVs either is present with its parsed contents or is missing. -/
structure FileSys where
  weapon_arrests_monthly : Option (List Row)
  weapon_arrests_summary : Option (List SummaryRow)
  weapon_arrests_monthly_averages : Option (List AvgRow)

/-- The file names listed in the `load_data` error message. -/
def expectedFiles : List String :=
  ["weapon_arrests_monthly.csv", "weapon_arrests_summary.csv",
   "weapon_arrests_monthly_averages.csv"]

/-- Embeds `load_data()`: reads the three CSVs; a `FileNotFoundError` from any
read is caught by the single `except` clause, which emits one error
message naming the three expected files and calls `st.stop()` —
embedded as `Except.error expectedFiles`, after which nothing further
runs. -/
def load_data (fs : FileSys) :
    Except (List String) (List Row × List SummaryRow × List AvgRow) :=
  match fs.weapon_arrests_monthly, fs.weapon_arrests_summary,
      fs.weapon_arrests_monthly_averages with
  | some m, some s, some a => .ok (m, s, a)
  | _, _, _ => .error expectedFiles

/-- Everything the page draws after a successful load: the four KPI
metrics, the traces of the monthly-trends chart, the two pivots of the
year-comparison tab, the seasonal charts, and the three statistics
tables. -/
structure DashboardOutput where
  filtered : List Row
  kpi_total_arrests : Int
  kpi_avg_monthly : Option ℚ
  kpi_yoy_change : Option ℚ
  kpi_trend : String
  trace_arrests : List (String × Int)
  trace_avg_3 : List (String × Option ℚ)
  trace_avg_12 : List (String × Option ℚ)
  year_comparison_chart : Except String (List (Int × List (Int × Option Int)))
  yoy_heatmap : Except String (List (Int × List (Int × Option (Option ℚ))))
  seasonal_bar : List AvgRow
  seasonal_box : List (Int × Int)
  stats_summary : List SummaryRow
  stats_monthly : List AvgRow
  stats_yearly_changes : List YcRow

/-- The body of the script after `load_data`: filter by the selected year
range, then compute every KPI, chart and table from the filtered table or
from the unfiltered summary / monthly-averages tables. -/
def renderDashboard (monthly_data : List Row) (summary_data : List SummaryRow)
    (monthly_averages : List AvgRow) (lo hi : Int) : DashboardOutput :=
  let fd := filtered_data monthly_data lo hi
  { filtered := fd
    kpi_total_arrests := total_arrests fd
    kpi_avg_monthly := avg_monthly fd
    kpi_yoy_change := yoy_change fd
    kpi_trend := trend fd
    trace_arrests := fd.map fun r => (r.Year_Month, r.Arrests)
    trace_avg_3 := fd.map fun r => (r.Year_Month, r.Avg_3_Month)
    trace_avg_12 := fd.map fun r => (r.Year_Month, r.Avg_12_Month)
    year_comparison_chart := yearly_comparison fd
    yoy_heatmap := yoy_pivot fd
    seasonal_bar := monthly_averages
    seasonal_box := fd.map fun r => (r.Month, r.Arrests)
    stats_summary := summary_data
    stats_monthly := monthly_averages
    stats_yearly_changes := yearly_changes fd }

/-- The whole script run: load the three files, then render; a failed
load stops before anything is drawn. -/
def runDashboard (fs : FileSys) (lo hi : Int) :
    Except (List String) DashboardOutput :=
  (load_data fs).map fun x => renderDashboard x.1 x.2.1 x.2.2 lo hi

/-- C6: when any of the three CSVs is missing, the program stops with the
single error message naming the three expected files; no dashboard output
(charts, KPIs, tables) is produced. -/
theorem missing_file_single_error (fs : FileSys) (lo hi : Int)
    (h : fs.weapon_arrests_monthly = none ∨ fs.weapon_arrests_summary = none ∨
      fs.weapon_arrests_monthly_averages = none) :
    runDashboard fs lo hi = .error expectedFiles := by
  unfold runDashboard load_data
  rcases fs with ⟨m, s, a⟩
  rcases h with h | h | h
  · cases h
    cases s <;> cases a <;> rfl
  · cases h
    cases m <;> cases a <;> rfl
  · cases h
    cases m <;> cases s <;> rfl

theorem missing_file_single_error_witness :
    runDashboard ⟨none, some [], some []⟩ 2018 2023 = .error expectedFiles :=
  missing_file_single_error ⟨none, some [], some []⟩ 2018 2023 (Or.inl rfl)

/-- C1: the per-year `YoY_Change` of the `Year-over-Year Changes`
statistics table evaluated on the monthly table with rows
(2018,1,10), (2018,2,20), (2018,3,30): inside the single-year group the
`x.shift(12)` series is all-NaN, its sum is 0, and `x.sum() / 0` is
positive infinity — the table shows an infinite value, refuting the claim
that its `YoY_Change` is never infinite. -/
theorem yearly_changes_yoy_is_infinite :
    yearly_changes
      [⟨2018, 1, "2018-01", 10, none, none, none⟩,
       ⟨2018, 2, "2018-02", 20, none, none, none⟩,
       ⟨2018, 3, "2018-03", 30, none, none, none⟩]
      = [⟨2018, 60, .posInf⟩] := by decide

/-- The script's top-level bindings after a successful `load_data()`, as
an explicit state threaded through the later statements. -/
structure ProgState where
  monthly_data : List Row
  summary_data : List SummaryRow
  monthly_averages : List AvgRow

/-- Statement `filtered_data = monthly_data[...]`: reads `monthly_data`, binds a new
name, writes nothing back. -/
def filterStep (s : ProgState) (lo hi : Int) : ProgState × List Row :=
  (s, filtered_data s.monthly_data lo hi)

/-- The four KPI metric statements: read `filtered_data`, write nothing
back. -/
def kpiStep (s : ProgState) (fd : List Row) :
    ProgState × (Int × Option ℚ × Option ℚ × String) :=
  (s, (total_arrests fd, avg_monthly fd, yoy_change fd, trend fd))

/-- The two `pivot` statements of the Year Comparison tab: read
`filtered_data`, write nothing back. -/
def pivotStep (s : ProgState) (fd : List Row) :
    ProgState × (Except String (List (Int × List (Int × Option Int)))
      × Except String (List (Int × List (Int × Option (Option ℚ))))) :=
  (s, (yearly_comparison fd, yoy_pivot fd))

/-- The `yearly_changes = filtered_data.groupby(...)` statement of the
Statistics tab: reads `filtered_data`, writes nothing back. -/
def yearlyChangesStep (s : ProgState) (fd : List Row) :
    ProgState × List YcRow :=
  (s, yearly_changes fd)

/-- The script body after loading, with the state made explicit: each
derived computation is a step that returns the (unchanged) state together
with the fresh value it binds. -/
def runWithState (s : ProgState) (lo hi : Int) :
    ProgState × DashboardOutput :=
  let p1 := filterStep s lo hi
  let fd := p1.2
  let p2 := kpiStep p1.1 fd
  let p3 := pivotStep p2.1 fd
  let p4 := yearlyChangesStep p3.1 fd
  (p4.1,
   { filtered := fd
     kpi_total_arrests := p2.2.1
     kpi_avg_monthly := p2.2.2.1
     kpi_yoy_change := p2.2.2.2.1
     kpi_trend := p2.2.2.2.2
     trace_arrests := fd.map fun r => (r.Year_Month, r.Arrests)
     trace_avg_3 := fd.map fun r => (r.Year_Month, r.Avg_3_Month)
     trace_avg_12 := fd.map fun r => (r.Year_Month, r.Avg_12_Month)
     year_comparison_chart := p3.2.1
     yoy_heatmap := p3.2.2
     seasonal_bar := p4.1.monthly_averages
     seasonal_box := fd.map fun r => (r.Month, r.Arrests)
     stats_summary := p4.1.summary_data
     stats_monthly := p4.1.monthly_averages
     stats_yearly_changes := p4.2 })

/-- C7: running every derived computation (filter, KPIs, pivots,
`yearly_changes`) leaves the loaded tables untouched — the final state
equals the initial one, in particular the monthly table holds exactly the
rows it held after loading — and the derived output is the same fresh
value `renderDashboard` computes from the source tables alone. -/
theorem derived_computations_do_not_mutate (s : ProgState) (lo hi : Int) :
    (runWithState s lo hi).1 = s ∧
    (runWithState s lo hi).1.monthly_data = s.monthly_data ∧
    (runWithState s lo hi).2 =
      renderDashboard s.monthly_data s.summary_data s.monthly_averages lo hi :=
  ⟨rfl, rfl, rfl⟩

/-- C8: the computation is deterministic and pure — two runs on equal
inputs (the same three tables and the same selected year range) produce
equal results, including equal failures when the load fails. -/
theorem rerun_deterministic (fs₁ fs₂ : FileSys) (lo₁ hi₁ lo₂ hi₂ : Int)
    (hfs : fs₁ = fs₂) (hlo : lo₁ = lo₂) (hhi : hi₁ = hi₂) :
    runDashboard fs₁ lo₁ hi₁ = runDashboard fs₂ lo₂ hi₂ := by
  subst hfs
  subst hlo
  subst hhi
  rfl

theorem rerun_deterministic_witness :
    runDashboard ⟨none, none, none⟩ 2018 2023
      = runDashboard ⟨none, none, none⟩ 2018 2023 :=
  rerun_deterministic ⟨none, none, none⟩ ⟨none, none, none⟩ 2018 2023 2018 2023
    rfl rfl rfl

end DataDashboard
